import Mathlib

/-!
Verification of the GovSG WhatsApp callback service
(`backend/src/govsg/services/govsg-callback.service.ts`).

The development shallowly embeds the three components of the service:

* the webhook classifier/dispatcher (`parseWebhook`),
* the status reconciliation engine (`parseTemplateMessageWebhook`), and
* the auto-reply decision engine (`parseUserMessageWebhook`,
  `shouldSendAutoReply`, `matchAnyRegex`, `sendAutoReply`),

and proves the spec-level properties about them.  JavaScript strings are
modelled by Lean `String` (a list of characters), timestamps produced by
`new Date()` by a `Nat` parameter `now`, the two Sequelize stores by lists
of records, and thrown exceptions by `Except`/error components.
-/

namespace GovsgCallback

/-! ### A small matcher for the fixed suppression regexes

The service only ever uses six concrete regular expressions, each a literal
string possibly containing single `.` wildcards and one trailing `*` over a
single character (`/dear customer*/`).  We embed exactly that fragment: an
atom is a literal character, the `.` wildcard (which in JavaScript without
the `s` flag matches every character except a line terminator), or `c*`.
`RegExp.prototype.test` is existence of a match anywhere in the input,
which `rxSearch` implements. -/

/-- JavaScript line terminators, the characters `.` does not match. -/
def isLineTerminator (c : Char) : Bool :=
  c == '\n' || c == '\r' || c == '\u2028' || c == '\u2029'

/-- One atom of the regex fragment used by the service. -/
inductive RxAtom where
  | lit (c : Char)
  | dot
  | star (c : Char)
deriving DecidableEq

/-- Match `c*` followed by the continuation `cont`: try the continuation
before and after each consumed `c`. -/
def starLoop (c : Char) (cont : List Char → Bool) : List Char → Bool
  | [] => cont []
  | x :: xs => cont (x :: xs) || (x == c && starLoop c cont xs)

/-- Does the pattern match some prefix of the input? -/
def matchesFrom : List RxAtom → List Char → Bool
  | [], _ => true
  | RxAtom.lit c :: as, xs =>
    match xs with
    | [] => false
    | x :: ys => x == c && matchesFrom as ys
  | RxAtom.dot :: as, xs =>
    match xs with
    | [] => false
    | x :: ys => !isLineTerminator x && matchesFrom as ys
  | RxAtom.star c :: as, xs => starLoop c (fun ys => matchesFrom as ys) xs

/-- Does the pattern match anywhere in the input (`RegExp.test`)? -/
def rxSearch (as : List RxAtom) : List Char → Bool
  | [] => matchesFrom as []
  | x :: xs => matchesFrom as (x :: xs) || rxSearch as xs

/-- A string, read as a sequence of literal atoms. -/
def litPattern (w : String) : List RxAtom :=
  w.data.map RxAtom.lit

/-- The regex `/auto.reply/i`. -/
def autoReplyPattern : List RxAtom :=
  litPattern "auto" ++ RxAtom.dot :: litPattern "reply"

/-- The regex `/thank/i`. -/
def thankPattern : List RxAtom := litPattern "thank"

/-- The regex `/received your message/i`. -/
def receivedYourMessagePattern : List RxAtom := litPattern "received your message"

/-- The regex `/http/i`. -/
def httpPattern : List RxAtom := litPattern "http"

/-- The regex `/out.of.office/i`. -/
def outOfOfficePattern : List RxAtom :=
  litPattern "out" ++ RxAtom.dot :: (litPattern "of" ++ RxAtom.dot :: litPattern "office")

/-- The regex `/dear customer*/i` — note the `*` applies to the final `r` only. -/
def dearCustomerPattern : List RxAtom :=
  litPattern "dear custome" ++ [RxAtom.star 'r']

/-- Embeds `validation.test(input)`.  The result is wrapped in `Except` because the
caller wraps the loop in `try`/`catch`; for the six concrete patterns the
test is total, so the embedded test always returns `Except.ok`. -/
def regexTest (pattern : List RxAtom) (input : String) : Except Unit Bool :=
  Except.ok (rxSearch pattern input.data)

/-- Embeds `matchAnyRegex(input, validations)`: iterate over the validations, return
`true` on the first match; an exception thrown while testing is caught and
also yields `true` (so that the auto-reply is not sent). -/
def matchAnyRegex (input : String) (validations : List (List RxAtom)) : Bool :=
  match validations with
  | [] => false
  | validation :: rest =>
    match regexTest validation input with
    | Except.ok true => true
    | Except.ok false => matchAnyRegex input rest
    | Except.error _ => true

/-- Embeds `String.prototype.toLowerCase`, modelled character-wise. -/
def toLowerString (s : String) : String :=
  String.mk (s.data.map Char.toLower)

/-- The six suppression regexes, in the order the source lists them. -/
def suppressionPatterns : List (List RxAtom) :=
  [autoReplyPattern, thankPattern, receivedYourMessagePattern, httpPattern,
    outOfOfficePattern, dearCustomerPattern]

/-- Embeds `shouldSendAutoReply(messageBody)` from the source: suppress (return
`false`) for an empty or over-long body, or when any suppression regex
matches the lower-cased body. -/
def shouldSendAutoReply (messageBody : String) : Bool :=
  if messageBody.length > 256 || messageBody.length == 0 then
    false
  else
    let matchedRegex := matchAnyRegex (toLowerString messageBody) suppressionPatterns
    if matchedRegex then false else true

/-! ### Inbound user messages and the auto-reply send path -/

/-- The `text` object of an inbound text message: `{ body }`. -/
structure WhatsAppWebhookTextBody where
  body : String
deriving DecidableEq

/-- One element of the `messages` array: `{ id, type, text? }`.  The `text`
object is only present for text messages; the source downcasts with
`as WhatsAppWebhookTextMessage` before reading it. -/
structure WhatsAppWebhookMessage where
  id : String
  type : String
  text : Option WhatsAppWebhookTextBody
deriving DecidableEq

/-- One element of the `contacts` array: `{ wa_id }`. -/
structure WebhookContact where
  wa_id : String
deriving DecidableEq

/-- The inbound-message webhook shape: `{ messages, contacts }`. -/
structure UserMessageWebhook where
  messages : List WhatsAppWebhookMessage
  contacts : List WebhookContact
deriving DecidableEq

/-- One call on the outbound WhatsApp client: either
`sendTemplateMessage({recipient, apiClient, templateName, params, language},
isTestMode)` or `sendTextMessage({recipient, apiClient, body})`. -/
inductive OutboundCall where
  | template (recipient : String) (apiClient : String) (templateName : String)
      (params : List String) (language : String) (isTestMode : Bool)
  | text (recipient : String) (apiClient : String) (body : String)
deriving DecidableEq

/-- The recipient of an outbound call. -/
def OutboundCall.recipient : OutboundCall → String
  | OutboundCall.template r _ _ _ _ _ => r
  | OutboundCall.text r _ _ => r

/-- Modelled from the spec: the fixed language of the acknowledgement
template (`WhatsAppLanguages.english`; the enum declaration is outside the
sources, the spec only requires a fixed language). -/
def whatsAppLanguageEnglish : String := "en"

/-- The fixed free-text acknowledgement body sent in production. -/
def govsgAckBody : String :=
  "If you are inquiring about COVID-19 updates, the COVID-19 infobot is temporarily unavailable due to maintenance work. For more COVID-19 related information, please visit the Ministry of Health’s website at moh.gov.sg. Thank you"

/-- Embeds `sendAutoReply(whatsappId, clientId)` from the source.  The execution
mode flag `config.get('env')` is passed explicitly as `env`; the source
computes `isLocal = env === 'development'` and sends one templated message
(in non-production) or one fixed text message (in production).  The result
lists the calls made on the outbound client. -/
def sendAutoReply (env : String) (whatsappId : String) (clientId : String) :
    List OutboundCall :=
  let isLocal := env == "development"
  if isLocal then
    [OutboundCall.template whatsappId clientId "2019covid19_ack" []
      whatsAppLanguageEnglish isLocal]
  else
    [OutboundCall.text whatsappId clientId govsgAckBody]

/-- The characters removed by `validator.blacklist(rawMessageBody,
'\\/\\\\[\\]<>()*')`: the character class `[\/\\[\]<>()*]`. -/
def blacklistChars : List Char :=
  ['/', '\\', '[', ']', '<', '>', '(', ')', '*']

/-- Embeds `validator.blacklist`: remove every occurrence of the blacklisted
characters and keeps everything else in order. -/
def sanitiseMessageBody (raw : String) : String :=
  String.mk (raw.data.filter (fun c => !blacklistChars.contains c))

/-- Embeds `parseUserMessageWebhook(body, clientId)` from the source.  `none`
models a runtime `TypeError` (destructuring `contacts[0]`/`messages[0]` or
reading `.text.body` off a message that has no `text` object); `some calls`
lists the outbound calls made.  Non-text messages are logged and ignored
(`some []`). -/
def parseUserMessageWebhook (env : String) (body : UserMessageWebhook)
    (clientId : String) : Option (List OutboundCall) :=
  match body.contacts.head?, body.messages.head? with
  | none, _ => none
  | _, none => none
  | some contact, some message =>
    if message.type != "text" then
      some []
    else
      match message.text with
      | none => none
      | some textObj =>
        let sanitisedMessageBody := sanitiseMessageBody textObj.body
        let autoReplyNeeded := shouldSendAutoReply sanitisedMessageBody
        if !autoReplyNeeded then some []
        else some (sendAutoReply env contact.wa_id clientId)

/-! ### Outbound message records and the reconciliation engine -/

/-- Modelled from the spec: the local status vocabulary of outbound message
records.  The spec only requires a one-to-one enum mapping from the
provider vocabulary (§4.2); the enum itself (`govsgMessageStatusMapper`'s
codomain in `@core/constants`) is outside the sources.  `created` is the
state a record holds before any webhook arrives. -/
inductive GovsgStatus where
  | created
  | sent
  | delivered
  | read
  | deleted
  | errored
deriving DecidableEq

/-- Modelled from the spec: `govsgMessageStatusMapper`, the one-to-one
mapping from the provider status vocabulary to the local one (§4.2).  It is
only ever applied to the five statuses that produce an update. -/
def govsgMessageStatusMapper (whatsappStatus : String) : GovsgStatus :=
  if whatsappStatus = "sent" then GovsgStatus.sent
  else if whatsappStatus = "delivered" then GovsgStatus.delivered
  else if whatsappStatus = "read" then GovsgStatus.read
  else if whatsappStatus = "deleted" then GovsgStatus.deleted
  else GovsgStatus.errored

/-- An outbound message record (`GovsgMessage` /
`GovsgMessageTransactional` row), restricted to the key and the mutable
fields this service touches. -/
structure GovsgRecord where
  serviceProviderMessageId : String
  status : GovsgStatus
  sentAt : Option Nat
  deliveredAt : Option Nat
  readAt : Option Nat
  deletedAt : Option Nat
  erroredAt : Option Nat
  errorCode : Option String
  errorDescription : Option String
deriving DecidableEq

/-- A `fieldOpts` object: the subset of fields an `update` call sets. -/
structure FieldOpts where
  status : Option GovsgStatus := none
  sentAt : Option Nat := none
  deliveredAt : Option Nat := none
  readAt : Option Nat := none
  deletedAt : Option Nat := none
  erroredAt : Option Nat := none
  errorCode : Option String := none
  errorDescription : Option String := none
deriving DecidableEq

/-- A field present in the update overwrites the record's field; a field
absent from the update leaves it alone. -/
def overwrite {α : Type} : Option α → Option α → Option α
  | some v, _ => some v
  | none, old => old

/-- Embeds `record.update(fieldOpts, ...)`: set exactly the fields carried by the
update. -/
def applyUpdate (r : GovsgRecord) (f : FieldOpts) : GovsgRecord :=
  { serviceProviderMessageId := r.serviceProviderMessageId
    status := f.status.getD r.status
    sentAt := overwrite f.sentAt r.sentAt
    deliveredAt := overwrite f.deliveredAt r.deliveredAt
    readAt := overwrite f.readAt r.readAt
    deletedAt := overwrite f.deletedAt r.deletedAt
    erroredAt := overwrite f.erroredAt r.erroredAt
    errorCode := overwrite f.errorCode r.errorCode
    errorDescription := overwrite f.errorDescription r.errorDescription }

/-- Embeds `Model.findOne` keyed on `serviceProviderMessageId` over a store
modelled as a list of records. -/
def findOne (recs : List GovsgRecord) (messageId : String) : Option GovsgRecord :=
  recs.find? (fun r => r.serviceProviderMessageId == messageId)

/-- The number of records of a store matching a message id. -/
def matchCount (recs : List GovsgRecord) (messageId : String) : Nat :=
  (recs.filter (fun r => r.serviceProviderMessageId == messageId)).length

/-- Embeds `update(fieldOpts, whereOpts)` with the id filter: apply the
field update to every record the `where` clause selects. -/
def updateWhere (recs : List GovsgRecord) (messageId : String) (f : FieldOpts) :
    List GovsgRecord :=
  recs.map (fun r =>
    if r.serviceProviderMessageId == messageId then applyUpdate r f else r)

/-- One element of a status webhook's `errors` array:
`{ code, title, details, href }`. -/
structure WhatsAppWebhookError where
  code : Int
  title : String
  details : String
  href : String
deriving DecidableEq

/-- One element of the `statuses` array: `{ id, status, errors? }`.  Per the
wire shape (spec §6) the `errors` array of a failed delivery is nested here,
inside the status element. -/
structure StatusEventWire where
  id : String
  status : String
  errors : Option (List WhatsAppWebhookError) := none
deriving DecidableEq

/-- The status webhook, `WhatsAppTemplateMessageWebhook`.  Its TypeScript
declaration is outside the sources; the wire shape is modelled from the
spec (§6): `{ statuses: [{ id, status, errors? }, ...] }`, with the nested
`errors` carried by `StatusEventWire`.  The top-level `errors` field mirrors
the `body.errors` property the source reads in its `failed` branch — per
the wire shape that property is absent (`none`) on a status webhook. -/
structure WhatsAppTemplateMessageWebhook where
  statuses : List StatusEventWire
  errors : Option (List WhatsAppWebhookError) := none
deriving DecidableEq

/-- The exceptions the service throws: `UnexpectedWebhookError` (with its
message), the generic `Error` of the exhaustive-switch default, and a
runtime `TypeError` from reading a property off `undefined`. -/
inductive CallbackError where
  | unexpectedWebhook (message : String)
  | unhandledStatus (status : String)
  | runtimeTypeError
deriving DecidableEq

/-- Embeds `parseTemplateMessageWebhook(body)` from the source, with the clock and
the two stores passed explicitly.  The result carries the outcome (thrown
exception or normal return) together with the state of the two stores after
the call. -/
def parseTemplateMessageWebhook (now : Nat)
    (govsgMessages govsgMessagesTransactional : List GovsgRecord)
    (body : WhatsAppTemplateMessageWebhook) :
    Except CallbackError Unit × List GovsgRecord × List GovsgRecord :=
  match body.statuses.head? with
  | none => (Except.error CallbackError.runtimeTypeError,
      govsgMessages, govsgMessagesTransactional)
  | some statusEvent =>
    let messageId := statusEvent.id
    let govsgMessage := findOne govsgMessages messageId
    let govsgMessageTransactional := findOne govsgMessagesTransactional messageId
    if govsgMessage.isNone && govsgMessageTransactional.isNone then
      (Except.ok (), govsgMessages, govsgMessagesTransactional)
    else if govsgMessage.isSome && govsgMessageTransactional.isSome then
      (Except.error (CallbackError.unexpectedWebhook
          "Received webhook for message that exists in both tables"),
        govsgMessages, govsgMessagesTransactional)
    else
      let whatsappStatus := statusEvent.status
      let applyBoth := fun (fieldOpts : FieldOpts) =>
        ((Except.ok () : Except CallbackError Unit),
          if govsgMessage.isSome then
            updateWhere govsgMessages messageId fieldOpts
          else govsgMessages,
          if govsgMessageTransactional.isSome then
            updateWhere govsgMessagesTransactional messageId fieldOpts
          else govsgMessagesTransactional)
      if whatsappStatus = "warning" then
        (Except.ok (), govsgMessages, govsgMessagesTransactional)
      else if whatsappStatus = "failed" then
        match body.errors with
        | none =>
          applyBoth { status := some (govsgMessageStatusMapper whatsappStatus)
                      erroredAt := some now }
        | some [] =>
          applyBoth { status := some (govsgMessageStatusMapper whatsappStatus)
                      erroredAt := some now }
        | some (err :: _) =>
          let errorCode := toString err.code
          let errorDescription :=
            err.title ++ " Details: " ++ err.details ++ " href: " ++ err.href
          applyBoth { status := some (govsgMessageStatusMapper whatsappStatus)
                      errorCode := some errorCode
                      errorDescription := some errorDescription
                      erroredAt := some now }
      else if whatsappStatus = "sent" then
        applyBoth { status := some (govsgMessageStatusMapper whatsappStatus)
                    sentAt := some now }
      else if whatsappStatus = "delivered" then
        applyBoth { status := some (govsgMessageStatusMapper whatsappStatus)
                    deliveredAt := some now }
      else if whatsappStatus = "read" then
        applyBoth { status := some (govsgMessageStatusMapper whatsappStatus)
                    readAt := some now }
      else if whatsappStatus = "deleted" then
        applyBoth { status := some (govsgMessageStatusMapper whatsappStatus)
                    deletedAt := some now }
      else
        (Except.error (CallbackError.unhandledStatus whatsappStatus),
          govsgMessages, govsgMessagesTransactional)

/-! ### The webhook classifier / dispatcher -/

/-- The untyped `body: unknown` of `parseWebhook`, as far as the classifier
inspects it: either not a non-null object, or an object whose recognised
keys (`statuses`, `errors`, `messages`, `contacts`) are each present
(`some`) or absent (`none`). -/
inductive WebhookBody where
  | notObject
  | object (statuses : Option (List StatusEventWire))
      (errors : Option (List WhatsAppWebhookError))
      (messages : Option (List WhatsAppWebhookMessage))
      (contacts : Option (List WebhookContact))
deriving DecidableEq

/-- Which handler `parseWebhook` dispatches to, with the downcast payload it
hands over. -/
inductive Route where
  | reconciliation (body : WhatsAppTemplateMessageWebhook)
  | decision (body : UserMessageWebhook)
deriving DecidableEq

/-- Whether a route goes to the auto-reply decision engine. -/
def Route.isDecision : Route → Bool
  | Route.reconciliation _ => false
  | Route.decision _ => true

/-- Embeds `parseWebhook(body, clientId)` from the source, restricted to its
classification and dispatch: a non-object fails; an object with a
`statuses` key is cast and dispatched to `parseTemplateMessageWebhook`; an
object with both `messages` and `contacts` keys is cast and dispatched to
`parseUserMessageWebhook`; everything else fails. -/
def parseWebhook (body : WebhookBody) : Except CallbackError Route :=
  match body with
  | WebhookBody.notObject =>
    Except.error (CallbackError.unexpectedWebhook "Unexpected webhook body")
  | WebhookBody.object statuses errors messages contacts =>
    match statuses with
    | some sts =>
      Except.ok (Route.reconciliation { statuses := sts, errors := errors })
    | none =>
      match messages, contacts with
      | some ms, some cs =>
        Except.ok (Route.decision { messages := ms, contacts := cs })
      | some _, none =>
        Except.error (CallbackError.unexpectedWebhook "Unexpected webhook body")
      | none, _ =>
        Except.error (CallbackError.unexpectedWebhook "Unexpected webhook body")

/-! ### Definitions following the spec's words, for comparison -/

/-- Follows the claim's words: the final suppression pattern as the literal
string `"dear customer"` (the source regex `/dear customer*/i` instead
applies `*` to the final `r`). -/
def dearCustomerClaimedPattern : List RxAtom := litPattern "dear customer"

/-- Follows the claim's words: the claimed list of suppression patterns. -/
def claimedSuppressionPatterns : List (List RxAtom) :=
  [autoReplyPattern, thankPattern, receivedYourMessagePattern, httpPattern,
    outOfOfficePattern, dearCustomerClaimedPattern]

/-- Follows the claim's words: the suppression predicate with the literal
`"dear customer"` as its final pattern, to be compared with
`shouldSendAutoReply`. -/
def shouldSendAutoReplyClaimed (messageBody : String) : Bool :=
  if messageBody.length > 256 || messageBody.length == 0 then
    false
  else
    let matchedRegex :=
      matchAnyRegex (toLowerString messageBody) claimedSuppressionPatterns
    if matchedRegex then false else true

/-- Follows the claim's words: the update a `sent`/`delivered`/`read`/
`deleted` status must apply — set `status` and exactly the one
corresponding timestamp field, leaving every other field of the record
unchanged. -/
def specTimestampUpdate (whatsappStatus : String) (now : Nat) (r : GovsgRecord) :
    GovsgRecord :=
  { r with
    status := govsgMessageStatusMapper whatsappStatus
    sentAt := if whatsappStatus = "sent" then some now else r.sentAt
    deliveredAt := if whatsappStatus = "delivered" then some now else r.deliveredAt
    readAt := if whatsappStatus = "read" then some now else r.readAt
    deletedAt := if whatsappStatus = "deleted" then some now else r.deletedAt }

/-! ### Concrete inputs used by the witnesses and counterexamples -/

/-- A fresh outbound record for message id `"m1"`. -/
def freshRecord : GovsgRecord :=
  { serviceProviderMessageId := "m1", status := GovsgStatus.created
    sentAt := none, deliveredAt := none, readAt := none, deletedAt := none
    erroredAt := none, errorCode := none, errorDescription := none }

/-- A failed status webhook whose error details sit, per the wire shape,
inside the status element — and whose top-level `errors` property is
therefore absent. -/
def c1FailedWebhook : WhatsAppTemplateMessageWebhook :=
  { statuses := [{ id := "m1", status := "failed"
                   errors := some [{ code := 131026
                                     title := "Message undeliverable"
                                     details := "The recipient cannot be reached"
                                     href := "https://developers.facebook.com/docs" }] }]
    errors := none }

/-- A `delivered` status webhook for message id `"m1"`. -/
def c2DeliveredWebhook : WhatsAppTemplateMessageWebhook :=
  { statuses := [{ id := "m1", status := "delivered", errors := none }]
    errors := none }

/-- A status element, an inbound message and a contact, combined into one
payload carrying all three recognised keys. -/
def c3StatusElement : StatusEventWire := { id := "m1", status := "delivered", errors := none }

/-- An inbound text message used by the classifier counterexample. -/
def c3Message : WhatsAppWebhookMessage :=
  { id := "im1", type := "text", text := some { body := "hello" } }

/-- A contact used by the classifier counterexample. -/
def c3Contact : WebhookContact := { wa_id := "6591234567" }

/-- A payload carrying `statuses`, `messages` and `contacts` at once. -/
def c3AllKeysBody : WebhookBody :=
  WebhookBody.object (some [c3StatusElement]) none (some [c3Message]) (some [c3Contact])

/-- A `sent` status webhook for message id `"m1"`. -/
def c5SentWebhook : WhatsAppTemplateMessageWebhook :=
  { statuses := [{ id := "m1", status := "sent", errors := none }]
    errors := none }

/-- A status webhook carrying the unrecognised status `"pending"`. -/
def c6PendingWebhook : WhatsAppTemplateMessageWebhook :=
  { statuses := [{ id := "m1", status := "pending", errors := none }]
    errors := none }

/-- An inbound-message webhook whose text qualifies for an auto-reply
(the spec's example body, 31 characters, matching no pattern). -/
def c7QualifyingWebhook : UserMessageWebhook :=
  { messages := [{ id := "im1", type := "text"
                   text := some { body := "When will I receive my results?" } }]
    contacts := [{ wa_id := "6598765432" }] }

/-- An inbound-message webhook whose raw text carries every blacklisted
character. -/
def c8RawWebhook : UserMessageWebhook :=
  { messages := [{ id := "im2", type := "text"
                   text := some { body := "(see)*<this>[now]/ok\\fine" } }]
    contacts := [{ wa_id := "6511112222" }] }

/-- A status webhook for a message id tracked in neither store. -/
def c9UnknownWebhook : WhatsAppTemplateMessageWebhook :=
  { statuses := [{ id := "m-unknown", status := "read", errors := none }]
    errors := none }

/-! ## Lemmas about the regex matcher -/

theorem matchesFrom_nil (xs : List Char) : matchesFrom [] xs = true := rfl

theorem matchesFrom_litPattern_append (w : List Char) (as : List RxAtom)
    (xs : List Char) :
    matchesFrom (w.map RxAtom.lit ++ as) xs = true ↔
      ∃ ys, xs = w ++ ys ∧ matchesFrom as ys = true := by
  induction w generalizing xs with
  | nil => simp
  | cons c w ih =>
    cases xs with
    | nil => simp [matchesFrom]
    | cons x xs => simp [matchesFrom, ih, List.cons_eq_cons, and_assoc]

theorem matchesFrom_litPattern (w : String) (xs : List Char) :
    matchesFrom (litPattern w) xs = true ↔ w.data <+: xs := by
  have h := matchesFrom_litPattern_append w.data [] xs
  rw [List.append_nil] at h
  rw [litPattern, h]
  constructor
  · rintro ⟨ys, rfl, -⟩
    exact ⟨ys, rfl⟩
  · rintro ⟨ys, rfl⟩
    exact ⟨ys, rfl, rfl⟩

theorem matchesFrom_dot (as : List RxAtom) (xs : List Char) :
    matchesFrom (RxAtom.dot :: as) xs = true ↔
      ∃ c ys, xs = c :: ys ∧ isLineTerminator c = false ∧
        matchesFrom as ys = true := by
  cases xs with
  | nil => simp [matchesFrom]
  | cons x xs =>
    simp only [matchesFrom, Bool.and_eq_true, Bool.not_eq_true']
    constructor
    · rintro ⟨h1, h2⟩
      exact ⟨x, xs, rfl, h1, h2⟩
    · rintro ⟨c, ys, h, h1, h2⟩
      obtain ⟨rfl, rfl⟩ := List.cons_eq_cons.mp h
      exact ⟨h1, h2⟩

theorem matchesFrom_star_end (c : Char) (xs : List Char) :
    matchesFrom [RxAtom.star c] xs = true := by
  cases xs with
  | nil => rfl
  | cons x xs => simp [matchesFrom, starLoop, matchesFrom_nil]

theorem matchesFrom_litStar (w : String) (c : Char) (xs : List Char) :
    matchesFrom (litPattern w ++ [RxAtom.star c]) xs = true ↔ w.data <+: xs := by
  rw [litPattern, matchesFrom_litPattern_append]
  constructor
  · rintro ⟨ys, rfl, -⟩
    exact ⟨ys, rfl⟩
  · rintro ⟨ys, rfl⟩
    exact ⟨ys, rfl, matchesFrom_star_end c ys⟩

theorem matchesFrom_lit_dot (w : String) (as : List RxAtom) (xs : List Char) :
    matchesFrom (litPattern w ++ RxAtom.dot :: as) xs = true ↔
      ∃ c ys, xs = w.data ++ c :: ys ∧ isLineTerminator c = false ∧
        matchesFrom as ys = true := by
  rw [litPattern, matchesFrom_litPattern_append]
  constructor
  · rintro ⟨ys, rfl, hm⟩
    obtain ⟨c, zs, rfl, hc, hm2⟩ := (matchesFrom_dot _ _).mp hm
    exact ⟨c, zs, rfl, hc, hm2⟩
  · rintro ⟨c, ys, rfl, hc, hm⟩
    exact ⟨c :: ys, rfl, (matchesFrom_dot _ _).mpr ⟨c, ys, rfl, hc, hm⟩⟩

theorem prefix_append_cons {w₁ w₂ : List Char} {c : Char} {xs : List Char} :
    (w₁ ++ c :: w₂) <+: xs ↔ ∃ ys, xs = w₁ ++ c :: ys ∧ w₂ <+: ys := by
  constructor
  · rintro ⟨t, rfl⟩
    exact ⟨w₂ ++ t, by simp, ⟨t, rfl⟩⟩
  · rintro ⟨ys, rfl, t, rfl⟩
    exact ⟨t, by simp⟩

theorem rxSearch_eq_true_iff (as : List RxAtom) (xs : List Char) :
    rxSearch as xs = true ↔ ∃ ys, ys <:+ xs ∧ matchesFrom as ys = true := by
  induction xs with
  | nil => simp [rxSearch, List.suffix_nil]
  | cons x xs ih =>
    simp only [rxSearch, Bool.or_eq_true, ih, List.suffix_cons_iff]
    constructor
    · rintro (h | ⟨ys, hs, hm⟩)
      · exact ⟨x :: xs, Or.inl rfl, h⟩
      · exact ⟨ys, Or.inr hs, hm⟩
    · rintro ⟨ys, hs | hs, hm⟩
      · exact Or.inl (hs ▸ hm)
      · exact Or.inr ⟨ys, hs, hm⟩

theorem rxSearch_iff_infix_of (as : List RxAtom) (w : List Char)
    (h : ∀ ys, matchesFrom as ys = true ↔ w <+: ys) (xs : List Char) :
    rxSearch as xs = true ↔ w <:+: xs := by
  rw [rxSearch_eq_true_iff, List.infix_iff_prefix_suffix]
  constructor
  · rintro ⟨ys, hs, hm⟩
    exact ⟨ys, (h ys).mp hm, hs⟩
  · rintro ⟨t, hp, hs⟩
    exact ⟨t, hs, (h t).mpr hp⟩

theorem rxSearch_litPattern (w : String) (xs : List Char) :
    rxSearch (litPattern w) xs = true ↔ w.data <:+: xs :=
  rxSearch_iff_infix_of _ _ (matchesFrom_litPattern w) xs

theorem rxSearch_dearCustomer (xs : List Char) :
    rxSearch dearCustomerPattern xs = true ↔ "dear custome".data <:+: xs :=
  rxSearch_iff_infix_of _ _ (matchesFrom_litStar "dear custome" 'r') xs

theorem matchesFrom_autoReply (xs : List Char) :
    matchesFrom autoReplyPattern xs = true ↔
      ∃ c, isLineTerminator c = false ∧
        ("auto".data ++ c :: "reply".data) <+: xs := by
  rw [autoReplyPattern, matchesFrom_lit_dot]
  constructor
  · rintro ⟨c, ys, rfl, hc, hm⟩
    exact ⟨c, hc, prefix_append_cons.mpr
      ⟨ys, rfl, (matchesFrom_litPattern _ _).mp hm⟩⟩
  · rintro ⟨c, hc, hp⟩
    obtain ⟨ys, rfl, hp2⟩ := prefix_append_cons.mp hp
    exact ⟨c, ys, rfl, hc, (matchesFrom_litPattern _ _).mpr hp2⟩

theorem rxSearch_autoReply (xs : List Char) :
    rxSearch autoReplyPattern xs = true ↔
      ∃ c, isLineTerminator c = false ∧
        ("auto".data ++ c :: "reply".data) <:+: xs := by
  rw [rxSearch_eq_true_iff]
  constructor
  · rintro ⟨ys, hs, hm⟩
    obtain ⟨c, hc, hp⟩ := (matchesFrom_autoReply ys).mp hm
    exact ⟨c, hc, List.infix_iff_prefix_suffix.mpr ⟨ys, hp, hs⟩⟩
  · rintro ⟨c, hc, hinf⟩
    obtain ⟨t, hp, hs⟩ := List.infix_iff_prefix_suffix.mp hinf
    exact ⟨t, hs, (matchesFrom_autoReply t).mpr ⟨c, hc, hp⟩⟩

theorem matchesFrom_outOfOffice (xs : List Char) :
    matchesFrom outOfOfficePattern xs = true ↔
      ∃ c d, isLineTerminator c = false ∧ isLineTerminator d = false ∧
        ("out".data ++ c :: ("of".data ++ d :: "office".data)) <+: xs := by
  rw [outOfOfficePattern, matchesFrom_lit_dot]
  constructor
  · rintro ⟨c, ys, rfl, hc, hm⟩
    obtain ⟨d, zs, rfl, hd, hm2⟩ := (matchesFrom_lit_dot _ _ _).mp hm
    refine ⟨c, d, hc, hd, prefix_append_cons.mpr ⟨_, rfl, ?_⟩⟩
    exact prefix_append_cons.mpr ⟨zs, rfl, (matchesFrom_litPattern _ _).mp hm2⟩
  · rintro ⟨c, d, hc, hd, hp⟩
    obtain ⟨ys, rfl, hp2⟩ := prefix_append_cons.mp hp
    obtain ⟨zs, rfl, hp3⟩ := prefix_append_cons.mp hp2
    exact ⟨c, _, rfl, hc, (matchesFrom_lit_dot _ _ _).mpr
      ⟨d, zs, rfl, hd, (matchesFrom_litPattern _ _).mpr hp3⟩⟩

theorem rxSearch_outOfOffice (xs : List Char) :
    rxSearch outOfOfficePattern xs = true ↔
      ∃ c d, isLineTerminator c = false ∧ isLineTerminator d = false ∧
        ("out".data ++ c :: ("of".data ++ d :: "office".data)) <:+: xs := by
  rw [rxSearch_eq_true_iff]
  constructor
  · rintro ⟨ys, hs, hm⟩
    obtain ⟨c, d, hc, hd, hp⟩ := (matchesFrom_outOfOffice ys).mp hm
    exact ⟨c, d, hc, hd, List.infix_iff_prefix_suffix.mpr ⟨ys, hp, hs⟩⟩
  · rintro ⟨c, d, hc, hd, hinf⟩
    obtain ⟨t, hp, hs⟩ := List.infix_iff_prefix_suffix.mp hinf
    exact ⟨t, hs, (matchesFrom_outOfOffice t).mpr ⟨c, d, hc, hd, hp⟩⟩

theorem matchAnyRegex_eq_any (input : String) (ps : List (List RxAtom)) :
    matchAnyRegex input ps = ps.any (fun p => rxSearch p input.data) := by
  induction ps with
  | nil => rfl
  | cons p ps ih =>
    cases h : rxSearch p input.data <;>
      simp [matchAnyRegex, regexTest, h, ih]

/-! ## Characterisation of the suppression predicate -/

theorem shouldSendAutoReply_eq_false_iff (s : String) :
    shouldSendAutoReply s = false ↔
      s.length = 0 ∨ 256 < s.length ∨
        matchAnyRegex (toLowerString s) suppressionPatterns = true := by
  unfold shouldSendAutoReply
  split
  next h =>
    simp only [Bool.or_eq_true, decide_eq_true_eq, beq_iff_eq] at h
    simp only [eq_self_iff_true, true_iff]
    tauto
  next h =>
    simp only [Bool.or_eq_true, decide_eq_true_eq, beq_iff_eq, not_or] at h
    cases hm : matchAnyRegex (toLowerString s) suppressionPatterns <;>
      simp [hm, h.1, h.2]

theorem suppression_match_iff (l : String) :
    matchAnyRegex l suppressionPatterns = true ↔
      (∃ c, isLineTerminator c = false ∧
        ("auto".data ++ c :: "reply".data) <:+: l.data) ∨
      "thank".data <:+: l.data ∨
      "received your message".data <:+: l.data ∨
      "http".data <:+: l.data ∨
      (∃ c d, isLineTerminator c = false ∧ isLineTerminator d = false ∧
        ("out".data ++ c :: ("of".data ++ d :: "office".data)) <:+: l.data) ∨
      "dear custome".data <:+: l.data := by
  rw [matchAnyRegex_eq_any]
  simp only [suppressionPatterns, thankPattern, receivedYourMessagePattern,
    httpPattern, List.any_cons, List.any_nil, Bool.or_eq_true, Bool.or_false]
  rw [rxSearch_autoReply, rxSearch_litPattern, rxSearch_litPattern,
    rxSearch_litPattern, rxSearch_outOfOffice, rxSearch_dearCustomer]

/-- C4 (amended): the suppression predicate returns `false` (no reply)
exactly when the body is empty, longer than 256 characters, or its
lower-cased form contains `"auto"` + any single non-line-terminator
character + `"reply"`, contains `"thank"`, `"received your message"` or
`"http"`, contains `"out"` + any single character + `"of"` + any single
character + `"office"`, or contains `"dear custome"` (the pattern
`/dear customer*/` makes the trailing `r` optional); pattern-evaluation
failure also yields `false`, and otherwise the predicate returns `true`. -/
theorem shouldSendAutoReply_spec (s : String) :
    shouldSendAutoReply s = false ↔
      s.length = 0 ∨ 256 < s.length ∨
      (∃ c, isLineTerminator c = false ∧
        ("auto".data ++ c :: "reply".data) <:+: (toLowerString s).data) ∨
      "thank".data <:+: (toLowerString s).data ∨
      "received your message".data <:+: (toLowerString s).data ∨
      "http".data <:+: (toLowerString s).data ∨
      (∃ c d, isLineTerminator c = false ∧ isLineTerminator d = false ∧
        ("out".data ++ c :: ("of".data ++ d :: "office".data)) <:+:
          (toLowerString s).data) ∨
      "dear custome".data <:+: (toLowerString s).data := by
  rw [shouldSendAutoReply_eq_false_iff, suppression_match_iff]

/-- C4 counterexample: the body `"dear custome"` (length 12, containing no
trailing `r` and matching none of the patterns the claim lists, so the
claim's predicate would answer `true`) is nevertheless suppressed by the
source predicate, because `/dear customer*/` already matches
`"dear custome"`. -/
theorem shouldSendAutoReply_claim_counterexample :
    shouldSendAutoReplyClaimed "dear custome" = true ∧
      shouldSendAutoReply "dear custome" = false := by
  exact ⟨rfl, rfl⟩

/-- C10: every sanitized body of length between 1 and 256 whose lower-cased
form contains the substring `"dear custome"` — even without any trailing
`"r"` — is suppressed (the predicate returns `false`), because the final
pattern matches `"dear custome"` followed by zero or more `"r"`
characters. -/
theorem dearCustome_suppressed (s : String)
    (_h1 : 1 ≤ s.length) (_h2 : s.length ≤ 256)
    (h3 : "dear custome".data <:+: (toLowerString s).data) :
    shouldSendAutoReply s = false := by
  refine (shouldSendAutoReply_eq_false_iff s).mpr (Or.inr (Or.inr ?_))
  exact (suppression_match_iff _).mpr
    (Or.inr (Or.inr (Or.inr (Or.inr (Or.inr h3)))))

/-- C10 witness: the concrete body `"Dear Custome, hello"` is suppressed. -/
theorem dearCustome_suppressed_witness :
    shouldSendAutoReply "Dear Custome, hello" = false :=
  dearCustome_suppressed "Dear Custome, hello" (by decide) (by decide) (by decide)

/-! ## The auto-reply decision path -/

/-- C8: sanitization removes every occurrence of each of the nine
characters `/ \ [ ] < > ( ) *` and no other characters (the result is a
sublist of the raw body preserving the count of every non-blacklisted
character), and for an inbound text message the whole outcome — the
suppression-pattern evaluation and any outbound send — is a function of
the sanitized body, never of the raw body. -/
theorem sanitisation_spec (env clientId : String) (body : UserMessageWebhook)
    (message : WhatsAppWebhookMessage) (contact : WebhookContact)
    (textObj : WhatsAppWebhookTextBody)
    (hc : body.contacts.head? = some contact)
    (hm : body.messages.head? = some message)
    (htype : message.type = "text")
    (htext : message.text = some textObj) :
    (∀ ch ∈ blacklistChars, ch ∉ (sanitiseMessageBody textObj.body).data) ∧
    (∀ ch, ch ∉ blacklistChars →
      (sanitiseMessageBody textObj.body).data.count ch =
        textObj.body.data.count ch) ∧
    (sanitiseMessageBody textObj.body).data.Sublist textObj.body.data ∧
    parseUserMessageWebhook env body clientId =
      some (if shouldSendAutoReply (sanitiseMessageBody textObj.body) then
        sendAutoReply env contact.wa_id clientId else []) := by
  refine ⟨?_, ?_, ?_, ?_⟩
  · intro ch hch hmem
    rw [sanitiseMessageBody] at hmem
    obtain ⟨-, hp⟩ := List.mem_filter.mp hmem
    rw [Bool.not_eq_true'] at hp
    exact absurd (List.elem_eq_true_of_mem hch) (by simp [List.contains] at hp; simp [hp])
  · intro ch hch
    rw [sanitiseMessageBody]
    exact List.count_filter (by simpa using hch)
  · exact List.filter_sublist _
  · rw [parseUserMessageWebhook, hc, hm]
    simp only [htype, htext, bne_self_eq_false, Bool.false_eq_true, if_false]
    cases hs : shouldSendAutoReply (sanitiseMessageBody textObj.body) <;>
      simp [hs]

/-- C8 witness: the sanitization and dataflow property at a concrete
inbound message whose raw body carries every blacklisted character. -/
theorem sanitisation_spec_witness :
    (∀ ch ∈ blacklistChars,
      ch ∉ (sanitiseMessageBody "(see)*<this>[now]/ok\\fine").data) ∧
    (∀ ch, ch ∉ blacklistChars →
      (sanitiseMessageBody "(see)*<this>[now]/ok\\fine").data.count ch =
        "(see)*<this>[now]/ok\\fine".data.count ch) ∧
    (sanitiseMessageBody "(see)*<this>[now]/ok\\fine").data.Sublist
      "(see)*<this>[now]/ok\\fine".data ∧
    parseUserMessageWebhook "production" c8RawWebhook "client-1" =
      some (if shouldSendAutoReply (sanitiseMessageBody "(see)*<this>[now]/ok\\fine")
        then sendAutoReply "production" "6511112222" "client-1" else []) :=
  sanitisation_spec "production" "client-1" c8RawWebhook
    { id := "im2", type := "text", text := some { body := "(see)*<this>[now]/ok\\fine" } }
    { wa_id := "6511112222" }
    { body := "(see)*<this>[now]/ok\\fine" } rfl rfl rfl rfl

/-- C7: for every qualifying inbound text message (the sanitized body
passes the suppression predicate) exactly one outbound call is made,
addressed to the event's sender id; in a non-production execution mode it
is the fixed acknowledgement template with empty parameters and fixed
language, in production it is the fixed free-text acknowledgement body. -/
theorem autoReply_single_send (env clientId : String) (body : UserMessageWebhook)
    (message : WhatsAppWebhookMessage) (contact : WebhookContact)
    (textObj : WhatsAppWebhookTextBody)
    (hc : body.contacts.head? = some contact)
    (hm : body.messages.head? = some message)
    (htype : message.type = "text")
    (htext : message.text = some textObj)
    (hqual : shouldSendAutoReply (sanitiseMessageBody textObj.body) = true) :
    ∃ call : OutboundCall,
      parseUserMessageWebhook env body clientId = some [call] ∧
      call.recipient = contact.wa_id ∧
      (env = "development" →
        call = OutboundCall.template contact.wa_id clientId "2019covid19_ack" []
          whatsAppLanguageEnglish true) ∧
      (env ≠ "development" →
        call = OutboundCall.text contact.wa_id clientId govsgAckBody) := by
  have hrun : parseUserMessageWebhook env body clientId =
      some (sendAutoReply env contact.wa_id clientId) := by
    rw [parseUserMessageWebhook, hc, hm]
    simp [htype, htext, hqual]
  by_cases henv : env = "development"
  · refine ⟨OutboundCall.template contact.wa_id clientId "2019covid19_ack" []
      whatsAppLanguageEnglish true, ?_, rfl, fun _ => rfl, fun hne => absurd henv hne⟩
    rw [hrun, sendAutoReply]
    simp [henv]
  · refine ⟨OutboundCall.text contact.wa_id clientId govsgAckBody, ?_, rfl,
      fun he => absurd he henv, fun _ => rfl⟩
    rw [hrun, sendAutoReply]
    have : (env == "development") = false := by simp [henv]
    simp [this]

/-- C7 witness: the spec's qualifying example body
`"When will I receive my results?"` in production yields exactly one
outbound text call to the sender. -/
theorem autoReply_single_send_witness :
    ∃ call : OutboundCall,
      parseUserMessageWebhook "production" c7QualifyingWebhook "client-1" =
        some [call] ∧
      call.recipient = "6598765432" ∧
      ("production" = "development" →
        call = OutboundCall.template "6598765432" "client-1" "2019covid19_ack" []
          whatsAppLanguageEnglish true) ∧
      ("production" ≠ "development" →
        call = OutboundCall.text "6598765432" "client-1" govsgAckBody) :=
  autoReply_single_send "production" "client-1" c7QualifyingWebhook
    { id := "im1", type := "text", text := some { body := "When will I receive my results?" } }
    { wa_id := "6598765432" }
    { body := "When will I receive my results?" } rfl rfl rfl rfl (by decide)

/-! ## The status reconciliation path -/

theorem findOne_eq_none_iff (recs : List GovsgRecord) (messageId : String) :
    findOne recs messageId = none ↔ matchCount recs messageId = 0 := by
  rw [findOne, matchCount, List.find?_eq_none, List.length_eq_zero,
    List.filter_eq_nil_iff]

theorem forall₂_updateWhere (recs : List GovsgRecord) (messageId : String)
    (f : FieldOpts) (expected : GovsgRecord → GovsgRecord)
    (h : ∀ r, applyUpdate r f = expected r) :
    List.Forall₂ (fun old new =>
      if old.serviceProviderMessageId = messageId then new = expected old
      else new = old) recs (updateWhere recs messageId f) := by
  rw [updateWhere, List.forall₂_map_right_iff]
  refine List.forall₂_same.mpr (fun x hx => ?_)
  by_cases hid : x.serviceProviderMessageId = messageId
  · simp [hid, h]
  · simp [hid]

theorem forall₂_no_match (recs : List GovsgRecord) (messageId : String)
    (expected : GovsgRecord → GovsgRecord) (h : matchCount recs messageId = 0) :
    List.Forall₂ (fun old new =>
      if old.serviceProviderMessageId = messageId then new = expected old
      else new = old) recs recs := by
  rw [matchCount, List.length_eq_zero, List.filter_eq_nil_iff] at h
  refine List.forall₂_same.mpr (fun x hx => ?_)
  rw [if_neg (by simpa using h x hx)]

/-- C2: a status event whose message id is found in both the ordinary and
the transactional store raises the both-tables `UnexpectedWebhookError`
(the spec's `InvariantViolationError`) and leaves both stores unchanged. -/
theorem bothStores_invariantViolation (now : Nat)
    (govsgMessages govsgMessagesTransactional : List GovsgRecord)
    (body : WhatsAppTemplateMessageWebhook) (st : StatusEventWire)
    (hst : body.statuses.head? = some st)
    (h1 : (findOne govsgMessages st.id).isSome = true)
    (h2 : (findOne govsgMessagesTransactional st.id).isSome = true) :
    parseTemplateMessageWebhook now govsgMessages govsgMessagesTransactional body =
      (Except.error (CallbackError.unexpectedWebhook
        "Received webhook for message that exists in both tables"),
       govsgMessages, govsgMessagesTransactional) := by
  obtain ⟨r1, hr1⟩ := Option.isSome_iff_exists.mp h1
  obtain ⟨r2, hr2⟩ := Option.isSome_iff_exists.mp h2
  simp [parseTemplateMessageWebhook, hst, hr1, hr2]

/-- C2 witness: a concrete id tracked by both stores raises the invariant
violation and changes neither store. -/
theorem bothStores_invariantViolation_witness :
    parseTemplateMessageWebhook 5 [freshRecord] [freshRecord] c2DeliveredWebhook =
      (Except.error (CallbackError.unexpectedWebhook
        "Received webhook for message that exists in both tables"),
       [freshRecord], [freshRecord]) :=
  bothStores_invariantViolation 5 [freshRecord] [freshRecord] c2DeliveredWebhook
    { id := "m1", status := "delivered", errors := none } rfl (by decide) (by decide)

/-- C9: a status event whose message id is found in neither store performs
no update on either store, raises no error and returns normally. -/
theorem neitherStore_noop (now : Nat)
    (govsgMessages govsgMessagesTransactional : List GovsgRecord)
    (body : WhatsAppTemplateMessageWebhook) (st : StatusEventWire)
    (hst : body.statuses.head? = some st)
    (h1 : findOne govsgMessages st.id = none)
    (h2 : findOne govsgMessagesTransactional st.id = none) :
    parseTemplateMessageWebhook now govsgMessages govsgMessagesTransactional body =
      (Except.ok (), govsgMessages, govsgMessagesTransactional) := by
  simp [parseTemplateMessageWebhook, hst, h1, h2]

/-- C9 witness: an id tracked in neither store returns normally and leaves
the stores unchanged. -/
theorem neitherStore_noop_witness :
    parseTemplateMessageWebhook 5 [freshRecord] [] c9UnknownWebhook =
      (Except.ok (), [freshRecord], []) :=
  neitherStore_noop 5 [freshRecord] [] c9UnknownWebhook
    { id := "m-unknown", status := "read", errors := none } rfl (by decide) (by decide)

/-- C6: a status event whose status value lies outside the recognised
vocabulary and whose message id matches exactly one record raises the
unhandled-status error (the spec's `UnhandledStatusError`) and performs no
update on either store. -/
theorem unhandledStatus_error (now : Nat)
    (govsgMessages govsgMessagesTransactional : List GovsgRecord)
    (body : WhatsAppTemplateMessageWebhook) (st : StatusEventWire)
    (hst : body.statuses.head? = some st)
    (hs1 : st.status ≠ "sent") (hs2 : st.status ≠ "delivered")
    (hs3 : st.status ≠ "read") (hs4 : st.status ≠ "deleted")
    (hs5 : st.status ≠ "failed") (hs6 : st.status ≠ "warning")
    (huniq : matchCount govsgMessages st.id +
      matchCount govsgMessagesTransactional st.id = 1) :
    parseTemplateMessageWebhook now govsgMessages govsgMessagesTransactional body =
      (Except.error (CallbackError.unhandledStatus st.status),
       govsgMessages, govsgMessagesTransactional) := by
  have hcase : (matchCount govsgMessages st.id = 0 ∧
      matchCount govsgMessagesTransactional st.id = 1) ∨
      (matchCount govsgMessages st.id = 1 ∧
      matchCount govsgMessagesTransactional st.id = 0) := by omega
  rcases hcase with ⟨ha, hb⟩ | ⟨ha, hb⟩
  · have h1 : findOne govsgMessages st.id = none := (findOne_eq_none_iff _ _).mpr ha
    have h2 : findOne govsgMessagesTransactional st.id ≠ none := fun hcon => by
      rw [findOne_eq_none_iff] at hcon
      omega
    obtain ⟨r, hr⟩ := Option.isSome_iff_exists.mp (Option.ne_none_iff_isSome.mp h2)
    simp [parseTemplateMessageWebhook, hst, h1, hr, hs1, hs2, hs3, hs4, hs5, hs6]
  · have h2 : findOne govsgMessagesTransactional st.id = none :=
      (findOne_eq_none_iff _ _).mpr hb
    have h1 : findOne govsgMessages st.id ≠ none := fun hcon => by
      rw [findOne_eq_none_iff] at hcon
      omega
    obtain ⟨r, hr⟩ := Option.isSome_iff_exists.mp (Option.ne_none_iff_isSome.mp h1)
    simp [parseTemplateMessageWebhook, hst, hr, h2, hs1, hs2, hs3, hs4, hs5, hs6]

/-- C6 witness: the unrecognised status `"pending"` for a tracked id raises
the unhandled-status error and changes nothing. -/
theorem unhandledStatus_error_witness :
    parseTemplateMessageWebhook 5 [freshRecord] [] c6PendingWebhook =
      (Except.error (CallbackError.unhandledStatus "pending"),
       [freshRecord], []) :=
  unhandledStatus_error 5 [freshRecord] [] c6PendingWebhook
    { id := "m1", status := "pending", errors := none } rfl
    (by decide) (by decide) (by decide) (by decide) (by decide) (by decide) (by decide)

/-- C5: a `sent`/`delivered`/`read`/`deleted` status event whose message id
matches exactly one record across the two stores returns normally, and
pointwise over both stores the one matched record receives exactly the
status field and the one corresponding timestamp field (every other field
of the record unchanged), while every other record in both stores is left
untouched. -/
theorem statusTimestamp_update (now : Nat)
    (govsgMessages govsgMessagesTransactional : List GovsgRecord)
    (body : WhatsAppTemplateMessageWebhook) (st : StatusEventWire)
    (hst : body.statuses.head? = some st)
    (hstatus : st.status = "sent" ∨ st.status = "delivered" ∨
      st.status = "read" ∨ st.status = "deleted")
    (huniq : matchCount govsgMessages st.id +
      matchCount govsgMessagesTransactional st.id = 1) :
    ∃ ord' trans',
      parseTemplateMessageWebhook now govsgMessages govsgMessagesTransactional body =
        (Except.ok (), ord', trans') ∧
      List.Forall₂ (fun old new =>
        if old.serviceProviderMessageId = st.id
        then new = specTimestampUpdate st.status now old else new = old)
        govsgMessages ord' ∧
      List.Forall₂ (fun old new =>
        if old.serviceProviderMessageId = st.id
        then new = specTimestampUpdate st.status now old else new = old)
        govsgMessagesTransactional trans' := by
  have hcase : (matchCount govsgMessages st.id = 1 ∧
      matchCount govsgMessagesTransactional st.id = 0) ∨
      (matchCount govsgMessages st.id = 0 ∧
      matchCount govsgMessagesTransactional st.id = 1) := by omega
  rcases hcase with ⟨ha, hb⟩ | ⟨ha, hb⟩
  · have h2 : findOne govsgMessagesTransactional st.id = none :=
      (findOne_eq_none_iff _ _).mpr hb
    have h1 : findOne govsgMessages st.id ≠ none := fun hcon => by
      rw [findOne_eq_none_iff] at hcon
      omega
    obtain ⟨r, hr⟩ := Option.isSome_iff_exists.mp (Option.ne_none_iff_isSome.mp h1)
    rcases hstatus with hs | hs | hs | hs
    · refine ⟨updateWhere govsgMessages st.id
          { status := some (govsgMessageStatusMapper "sent"), sentAt := some now },
        govsgMessagesTransactional, ?_, ?_, ?_⟩
      · simp [parseTemplateMessageWebhook, hst, hr, h2, hs]
      · rw [hs]
        exact forall₂_updateWhere _ _ _ _ (fun r0 => rfl)
      · rw [hs]
        exact forall₂_no_match _ _ _ hb
    · refine ⟨updateWhere govsgMessages st.id
          { status := some (govsgMessageStatusMapper "delivered"), deliveredAt := some now },
        govsgMessagesTransactional, ?_, ?_, ?_⟩
      · simp [parseTemplateMessageWebhook, hst, hr, h2, hs]
      · rw [hs]
        exact forall₂_updateWhere _ _ _ _ (fun r0 => rfl)
      · rw [hs]
        exact forall₂_no_match _ _ _ hb
    · refine ⟨updateWhere govsgMessages st.id
          { status := some (govsgMessageStatusMapper "read"), readAt := some now },
        govsgMessagesTransactional, ?_, ?_, ?_⟩
      · simp [parseTemplateMessageWebhook, hst, hr, h2, hs]
      · rw [hs]
        exact forall₂_updateWhere _ _ _ _ (fun r0 => rfl)
      · rw [hs]
        exact forall₂_no_match _ _ _ hb
    · refine ⟨updateWhere govsgMessages st.id
          { status := some (govsgMessageStatusMapper "deleted"), deletedAt := some now },
        govsgMessagesTransactional, ?_, ?_, ?_⟩
      · simp [parseTemplateMessageWebhook, hst, hr, h2, hs]
      · rw [hs]
        exact forall₂_updateWhere _ _ _ _ (fun r0 => rfl)
      · rw [hs]
        exact forall₂_no_match _ _ _ hb
  · have h1 : findOne govsgMessages st.id = none := (findOne_eq_none_iff _ _).mpr ha
    have h2 : findOne govsgMessagesTransactional st.id ≠ none := fun hcon => by
      rw [findOne_eq_none_iff] at hcon
      omega
    obtain ⟨r, hr⟩ := Option.isSome_iff_exists.mp (Option.ne_none_iff_isSome.mp h2)
    rcases hstatus with hs | hs | hs | hs
    · refine ⟨govsgMessages, updateWhere govsgMessagesTransactional st.id
          { status := some (govsgMessageStatusMapper "sent"), sentAt := some now },
        ?_, ?_, ?_⟩
      · simp [parseTemplateMessageWebhook, hst, h1, hr, hs]
      · rw [hs]
        exact forall₂_no_match _ _ _ ha
      · rw [hs]
        exact forall₂_updateWhere _ _ _ _ (fun r0 => rfl)
    · refine ⟨govsgMessages, updateWhere govsgMessagesTransactional st.id
          { status := some (govsgMessageStatusMapper "delivered"), deliveredAt := some now },
        ?_, ?_, ?_⟩
      · simp [parseTemplateMessageWebhook, hst, h1, hr, hs]
      · rw [hs]
        exact forall₂_no_match _ _ _ ha
      · rw [hs]
        exact forall₂_updateWhere _ _ _ _ (fun r0 => rfl)
    · refine ⟨govsgMessages, updateWhere govsgMessagesTransactional st.id
          { status := some (govsgMessageStatusMapper "read"), readAt := some now },
        ?_, ?_, ?_⟩
      · simp [parseTemplateMessageWebhook, hst, h1, hr, hs]
      · rw [hs]
        exact forall₂_no_match _ _ _ ha
      · rw [hs]
        exact forall₂_updateWhere _ _ _ _ (fun r0 => rfl)
    · refine ⟨govsgMessages, updateWhere govsgMessagesTransactional st.id
          { status := some (govsgMessageStatusMapper "deleted"), deletedAt := some now },
        ?_, ?_, ?_⟩
      · simp [parseTemplateMessageWebhook, hst, h1, hr, hs]
      · rw [hs]
        exact forall₂_no_match _ _ _ ha
      · rw [hs]
        exact forall₂_updateWhere _ _ _ _ (fun r0 => rfl)

/-- C5 witness: a `sent` event for an id tracked only in the ordinary store
sets `status` and `sentAt` on the one matched record and nothing else. -/
theorem statusTimestamp_update_witness :
    ∃ ord' trans',
      parseTemplateMessageWebhook 3 [freshRecord] [] c5SentWebhook =
        (Except.ok (), ord', trans') ∧
      List.Forall₂ (fun old new =>
        if old.serviceProviderMessageId = "m1"
        then new = specTimestampUpdate "sent" 3 old else new = old)
        [freshRecord] ord' ∧
      List.Forall₂ (fun old new =>
        if old.serviceProviderMessageId = "m1"
        then new = specTimestampUpdate "sent" 3 old else new = old)
        ([] : List GovsgRecord) trans' :=
  statusTimestamp_update 3 [freshRecord] [] c5SentWebhook
    { id := "m1", status := "sent", errors := none } rfl (Or.inl rfl) (by decide)

/-- C1 (code bug): a `failed` status whose non-empty error details sit —
per the wire shape — nested inside the status element produces an update
that sets only `status` and `erroredAt`; `errorCode` and
`errorDescription` stay unset, because the source reads the `errors`
property off the top level of the payload, where the wire shape never
carries it. -/
theorem failedNestedErrors_dropped :
    parseTemplateMessageWebhook 7 [freshRecord] [] c1FailedWebhook =
      (Except.ok (),
        [{ freshRecord with
            status := govsgMessageStatusMapper "failed"
            erroredAt := some 7 }],
        []) ∧
    ({ freshRecord with
        status := govsgMessageStatusMapper "failed"
        erroredAt := some 7 } : GovsgRecord).errorCode = none ∧
    ({ freshRecord with
        status := govsgMessageStatusMapper "failed"
        erroredAt := some 7 } : GovsgRecord).errorDescription = none := by
  exact ⟨rfl, rfl, rfl⟩

/-! ## The webhook classifier -/

/-- C3 counterexample: a payload carrying `statuses`, `messages` and
`contacts` at once is routed to the reconciliation path, although the
claim requires the decision path for every payload carrying both
`messages` and `contacts`. -/
theorem statusesKey_shadows_messages :
    parseWebhook c3AllKeysBody =
      Except.ok (Route.reconciliation
        { statuses := [c3StatusElement], errors := none }) ∧
    (parseWebhook c3AllKeysBody).map Route.isDecision = Except.ok false := by
  exact ⟨rfl, rfl⟩

/-- C3 (amended): a payload that is null or not an object fails with the
malformed-webhook error; an object carrying a `statuses` key — regardless
of `messages`/`contacts` — is routed to the reconciliation path with the
statuses collection; an object without `statuses` carrying both `messages`
and `contacts` is routed to the decision path with those collections; every
other object shape fails with the malformed-webhook error. -/
theorem parseWebhook_classification
    (sts : List StatusEventWire) (errs : Option (List WhatsAppWebhookError))
    (ms : Option (List WhatsAppWebhookMessage)) (cs : Option (List WebhookContact))
    (ms' : List WhatsAppWebhookMessage) (cs' : List WebhookContact) :
    parseWebhook WebhookBody.notObject =
      Except.error (CallbackError.unexpectedWebhook "Unexpected webhook body") ∧
    parseWebhook (WebhookBody.object (some sts) errs ms cs) =
      Except.ok (Route.reconciliation { statuses := sts, errors := errs }) ∧
    parseWebhook (WebhookBody.object none errs (some ms') (some cs')) =
      Except.ok (Route.decision { messages := ms', contacts := cs' }) ∧
    parseWebhook (WebhookBody.object none errs none cs) =
      Except.error (CallbackError.unexpectedWebhook "Unexpected webhook body") ∧
    parseWebhook (WebhookBody.object none errs (some ms') none) =
      Except.error (CallbackError.unexpectedWebhook "Unexpected webhook body") := by
  refine ⟨rfl, rfl, rfl, ?_, rfl⟩
  cases cs <;> rfl

end GovsgCallback
